import Mathlib

/-!
Verification development for the binary wheel builder.

This file gives a shallow embedding of the core of the repository:
the build orchestration (`binary_wheel_builder/api/build.py`) and the
remote-release binary source (`binary_wheel_builder/api/wheel_sources/github.py`),
together with models of the parts of the repository the core imports but whose
source files are not present here (`api/meta.py`, `wheel/reproducible.py`,
`wheel/util.py`); those models are taken from the specification and every such
definition is marked `Modelled from the spec:` in its doc comment.

Bytes are modelled as `List Nat` (each element one byte value); machine
32-bit arithmetic is `Nat` arithmetic reduced modulo `2 ^ 32`.  Python
exceptions are modelled by an explicit error type and `Except`; the network
transport (`urllib.request.urlopen`) is a function parameter whose invocations
are recorded in a trace list, so that claims about the number of network calls
become statements about that trace.
-/

/-- Byte strings: each element is one byte value (0..255). -/
abbrev Bytes := List Nat

/-- Code points of a string, used when text is encoded to bytes
(`str.encode("utf-8")` in the source; all generated text is ASCII, where the
UTF-8 encoding is the code-point sequence). -/
def strCodes (s : String) : Bytes :=
  s.data.map Char.toNat

/-- Truncation to a 32-bit word. -/
def w32 (n : Nat) : Nat := n % 4294967296

/-- Right rotation of a 32-bit word. -/
def rotr32 (x n : Nat) : Nat := w32 ((x >>> n) ||| (x <<< (32 - n)))

/-- Big-endian byte decomposition of `n` into `k` bytes. -/
def natToBytesBE (k n : Nat) : Bytes :=
  match k with
  | 0 => []
  | j + 1 => natToBytesBE j (n / 256) ++ [n % 256]

/-- SHA-256 round constants (FIPS 180-4); the checksum used by
`hashlib.sha256` in `build_wheel`. -/
def shaK : List Nat :=
  [1116352408, 1899447441, 3049323471, 3921009573,
   961987163, 1508970993, 2453635748, 2870763221,
   3624381080, 310598401, 607225278, 1426881987,
   1925078388, 2162078206, 2614888103, 3248222580,
   3835390401, 4022224774, 264347078, 604807628,
   770255983, 1249150122, 1555081692, 1996064986,
   2554220882, 2821834349, 2952996808, 3210313671,
   3336571891, 3584528711, 113926993, 338241895,
   666307205, 773529912, 1294757372, 1396182291,
   1695183700, 1986661051, 2177026350, 2456956037,
   2730485921, 2820302411, 3259730800, 3345764771,
   3516065817, 3600352804, 4094571909, 275423344,
   430227734, 506948616, 659060556, 883997877,
   958139571, 1322822218, 1537002063, 1747873779,
   1955562222, 2024104815, 2227730452, 2361852424,
   2428436474, 2756734187, 3204031479, 3329325298]

/-- SHA-256 initial hash values. -/
def shaH0 : List Nat :=
  [1779033703, 3144134277, 1013904242, 2773480762,
   1359893119, 2600822924, 528734635, 1541459225]

/-- Message-schedule sigma functions. -/
def shaSigma0 (x : Nat) : Nat := (rotr32 x 7) ^^^ (rotr32 x 18) ^^^ (x >>> 3)

/-- Message-schedule sigma functions. -/
def shaSigma1 (x : Nat) : Nat := (rotr32 x 17) ^^^ (rotr32 x 19) ^^^ (x >>> 10)

/-- Extend 16 schedule words to 64 by appending `fuel` further words. -/
def shaExtendAux : Nat → List Nat → List Nat
  | 0, ws => ws
  | n + 1, ws =>
      let i := ws.length
      let w := w32 (ws.getD (i - 16) 0 + shaSigma0 (ws.getD (i - 15) 0) +
                    ws.getD (i - 7) 0 + shaSigma1 (ws.getD (i - 2) 0))
      shaExtendAux n (ws ++ [w])

/-- Group bytes into big-endian 32-bit words. -/
def bytesToWords : Bytes → List Nat
  | a :: b :: c :: d :: rest =>
      w32 (a * 16777216 + b * 65536 + c * 256 + d) :: bytesToWords rest
  | _ => []

/-- One SHA-256 compression round on the state `[a, b, c, d, e, f, g, h]`. -/
def shaRound (st : List Nat) (wk : Nat × Nat) : List Nat :=
  match st with
  | [a, b, c, d, e, f, g, h] =>
      let s1 := (rotr32 e 6) ^^^ (rotr32 e 11) ^^^ (rotr32 e 25)
      let ch := (e &&& f) ^^^ ((4294967295 ^^^ e) &&& g)
      let t1 := w32 (h + s1 + ch + wk.2 + wk.1)
      let s0 := (rotr32 a 2) ^^^ (rotr32 a 13) ^^^ (rotr32 a 22)
      let mj := (a &&& b) ^^^ (a &&& c) ^^^ (b &&& c)
      let t2 := w32 (s0 + mj)
      [w32 (t1 + t2), a, b, c, w32 (d + t1), e, f, g]
  | other => other

/-- Compress one 64-byte block into the running hash state. -/
def shaCompressBlock (h : List Nat) (block : Bytes) : List Nat :=
  let ws := shaExtendAux 48 (bytesToWords block)
  let st := (ws.zip shaK).foldl shaRound h
  (h.zip st).map (fun p => w32 (p.1 + p.2))

/-- SHA-256 padding: append `0x80`, zero bytes up to 56 mod 64, then the
64-bit big-endian bit length. -/
def sha256Pad (msg : Bytes) : Bytes :=
  let zeros := (119 - msg.length % 64) % 64
  msg ++ [0x80] ++ List.replicate zeros 0 ++ natToBytesBE 8 (8 * msg.length)

/-- Split a byte string into 64-byte blocks. -/
def chunks64 : Bytes → List Bytes
  | [] => []
  | x :: rest => ((x :: rest).take 64) :: chunks64 ((x :: rest).drop 64)
  termination_by l => l.length
  decreasing_by simp; omega

/-- Lower-case hex digit. -/
def hexDigit (n : Nat) : Char :=
  if n < 10 then Char.ofNat (48 + n) else Char.ofNat (87 + n)

/-- Lower-case hex rendering of one 32-bit word (8 hex digits). -/
def word8Hex (w : Nat) : List Char :=
  (natToBytesBE 4 w).flatMap (fun b => [hexDigit (b / 16), hexDigit (b % 16)])

/-- Hex digest of SHA-256, as `hashlib.sha256(data).hexdigest()` returns it:
a pure function of the byte sequence. -/
def sha256Hex (msg : Bytes) : String :=
  let hs := (chunks64 (sha256Pad msg)).foldl shaCompressBlock shaH0
  String.mk (hs.flatMap word8Hex)

/-- One bit-reflection round of CRC-32. -/
def crc32Bit (fuel crc : Nat) : Nat :=
  match fuel with
  | 0 => crc
  | n + 1 => crc32Bit n (if crc % 2 = 1 then (crc / 2) ^^^ 0xEDB88320 else crc / 2)

/-- CRC-32 of a byte string, the per-entry content checksum the zip format
records (purely derived from the entry content). -/
def crc32 (bs : Bytes) : Nat :=
  (bs.foldl (fun crc b => crc32Bit 8 (crc ^^^ (b % 256))) 0xFFFFFFFF) ^^^ 0xFFFFFFFF

/-- Modelled from the spec: `WheelFileEntry` from `api/meta.py`, which is not
among the given source files.  An immutable (archive-relative path, raw byte
content, permission bits) triple; the default permission bits are the
conventional readable, non-executable file mode. -/
structure WheelFileEntry where
  path : String
  content : Bytes
  permissions : Nat := 0o644
deriving DecidableEq, Repr

/-- Modelled from the spec: `WheelPlatformIdentifier` from `api/meta.py`,
which is not among the given source files.  An immutable, comparable value
naming one target platform, mapping deterministically to a canonical tag
string used in output filenames. -/
structure WheelPlatformIdentifier where
  key : String
  tagString : String
deriving DecidableEq, Repr

/-- Canonical tag string of a platform identifier (`to_tag` in the source). -/
def WheelPlatformIdentifier.to_tag (p : WheelPlatformIdentifier) : String :=
  p.tagString

/-- Detail carried by `urllib.error.HTTPError`: the status code and reason of
a non-success HTTP response. -/
structure HTTPErrorInfo where
  code : Nat
  reason : String
deriving DecidableEq, Repr

/-- Rendering of an `HTTPError` by `str(e)` in Python:
`HTTP Error <code>: <reason>`. -/
def pyStrHTTPError (e : HTTPErrorInfo) : String :=
  "HTTP Error " ++ toString e.code ++ ": " ++ e.reason

/-- Exceptions that `GithubReleaseBinarySource.generate_fileset` can raise.
`unsupportedWheelPlatformException` and `sourceFileRequestFailed` embed the
two exception classes of `api/wheel_sources/exceptions.py`;
`sourceFileRequestFailed` records the message built at the raise site and the
original `HTTPError` attached as cause (`raise ... from e`).  `urlError` is a
raw `urllib.error.URLError` (a transport failure that is not an HTTP error
response) propagating uncaught out of the function. -/
inductive PyException where
  | unsupportedWheelPlatformException (platform : WheelPlatformIdentifier)
  | sourceFileRequestFailed (message : String) (cause : HTTPErrorInfo)
  | urlError (detail : String)
deriving DecidableEq, Repr

/-- A `urllib.request.Request`: target URL plus added headers. -/
structure Request where
  url : String
  headers : List (String × String)
deriving DecidableEq, Repr

/-- The `Request.add_header` method. -/
def Request.add_header (r : Request) (k v : String) : Request :=
  { r with headers := r.headers ++ [(k, v)] }

/-- Outcome of one `urlopen` call: a success body, an `HTTPError` (non-success
HTTP response), or a non-HTTP transport failure (`URLError`). -/
inductive UrlopenResult where
  | ok (body : Bytes)
  | httpError (e : HTTPErrorInfo)
  | urlError (detail : String)
deriving DecidableEq, Repr

/-- The network transport: what `urlopen` returns for each request. -/
abbrev Transport := Request → UrlopenResult

/-- Configuration of `GithubReleaseBinarySource` (`github.py`); the
constructor stores its arguments unchanged.  `tagPrefix` embeds the
constructor argument named tag-prefix in the source (default `"v"`), and the
asset-name mapping dict is a key-value list looked up by platform equality. -/
structure GithubReleaseBinarySource where
  project_slug : String
  version : String
  asset_name_mapping : List (WheelPlatformIdentifier × String)
  binary_path : String
  tagPrefix : String := "v"
  token : Option String := none

/-- Membership lookup in the asset-name mapping: `platform in dict` and
`dict[platform]` in the source. -/
def dictLookup (m : List (WheelPlatformIdentifier × String))
    (k : WheelPlatformIdentifier) : Option String :=
  match m with
  | [] => none
  | (k', v) :: rest => if k' = k then some v else dictLookup rest k

/-- The release-asset URL built in `generate_fileset`:
`https://github.com/{project_slug}/releases/download/{tag_prefix}{version}/{asset_name}`. -/
def GithubReleaseBinarySource.assetUrl (self : GithubReleaseBinarySource)
    (asset_name : String) : String :=
  "https://github.com/" ++ self.project_slug ++ "/releases/download/" ++
    self.tagPrefix ++ self.version ++ "/" ++ asset_name

/-- The request `generate_fileset` sends: the asset URL, with an
`Authorization: token <token>` header added exactly when a token was supplied
at construction. -/
def GithubReleaseBinarySource.buildRequest (self : GithubReleaseBinarySource)
    (asset_name : String) : Request :=
  let request : Request := { url := self.assetUrl asset_name, headers := [] }
  match self.token with
  | some t => request.add_header "Authorization" ("token " ++ t)
  | none => request

/-- Embedding of `GithubReleaseBinarySource.generate_fileset` (`github.py`).
The transport is passed explicitly; the second component of the result is the
trace of `urlopen` invocations, so `[]` means no network I/O happened.
The platform is first looked up in the asset-name mapping; absence raises
`UnsupportedWheelPlatformException` before any request is built.  Otherwise
one request is sent; an `HTTPError` is wrapped into
`SourceFileRequestFailed("Failed to fetch file: " + str(e))` with the original
error as cause, any other transport failure propagates raw, and a success body
yields exactly one file entry at the configured binary path with permission
bits `0o755`. -/
def GithubReleaseBinarySource.generate_fileset (self : GithubReleaseBinarySource)
    (urlopen : Transport) (wheel_platform : WheelPlatformIdentifier) :
    Except PyException (List WheelFileEntry) × List Request :=
  match dictLookup self.asset_name_mapping wheel_platform with
  | none => (.error (.unsupportedWheelPlatformException wheel_platform), [])
  | some asset_name =>
    let request := self.buildRequest asset_name
    match urlopen request with
    | .ok file_content =>
        (.ok [{ path := self.binary_path, content := file_content,
                permissions := 0o755 }], [request])
    | .httpError e =>
        (.error (.sourceFileRequestFailed ("Failed to fetch file: " ++ pyStrHTTPError e) e),
         [request])
    | .urlError detail => (.error (.urlError detail), [request])

/-- Modelled from the spec: the ambient build environment a non-reproducible
writer could observe — wall-clock time, host OS, locale, and per-file
filesystem modification times.  The spec requires the archive writer's output
to be independent of all of these. -/
structure BuildEnv where
  wallClock : Nat
  hostOS : String
  locale : String
  fsMtime : String → Nat

/-- Modelled from the spec: the constant value every entry's embedded
modification-timestamp field is fixed to (the system clock is never read). -/
def fixedEntryTimestamp : Nat := 315532800

/-- Modelled from the spec: the serialized per-entry record of the archive
(`ReproducibleWheelFile` from `wheel/reproducible.py`, which is not among the
given source files).  Each record carries the path (length-prefixed), the
entry's permission bits (the external attributes), the fixed timestamp
constant, the content checksum and size (both purely derived from the
content), and the content bytes. -/
def serializeEntry (e : WheelFileEntry) : Bytes :=
  (strCodes e.path).length :: strCodes e.path ++
    [e.permissions, fixedEntryTimestamp, crc32 e.content, e.content.length] ++
    e.content

/-- Modelled from the spec: the archive's trailing end record, carrying the
number of entries as the zip end-of-central-directory record does. -/
def endOfArchiveRecord (count : Nat) : Bytes := [count]

/-- Modelled from the spec: the full archive file the Reproducible Archive
Writer produces for an entry sequence.  The environment is available to the
writer but, per the spec, never consulted: per-entry records appear in
insertion order, every timestamp is the fixed constant, and all remaining
bytes are derived from the entries alone. -/
def reproducibleZipBytes (env : BuildEnv) (entries : List WheelFileEntry) : Bytes :=
  entries.flatMap serializeEntry ++ endOfArchiveRecord entries.length

/-- Reading the per-entry records back out of an archive byte string: returns
the (path codes, permission bits, content) of each record in file order.
Used to state which entries an archive contains and in which order. -/
def parseEntries : Bytes → List (Bytes × Nat × Bytes)
  | [] => []
  | plen :: rest =>
    match h : rest.drop plen with
    | perm :: _ts :: _crc :: clen :: r2 =>
        (rest.take plen, perm, r2.take clen) :: parseEntries (r2.drop clen)
    | _ => []
  termination_by l => l.length
  decreasing_by
    simp only [List.length_cons, List.length_drop]
    have hl := congrArg List.length h
    simp only [List.length_drop, List.length_cons] at hl
    omega

/-- Number of entry records an archive byte string contains. -/
def zipEntryCount (archive : Bytes) : Nat := (parseEntries archive).length

/-- The observable triple of one entry record. -/
def entryTriple (e : WheelFileEntry) : Bytes × Nat × Bytes :=
  (strCodes e.path, e.permissions, e.content)

/-- Filesystem model: newest write first; reading returns the newest write to
the path. -/
abbrev FS := List (String × Bytes)

/-- Write (or overwrite) one file. -/
def fsWrite (fs : FS) (path : String) (content : Bytes) : FS :=
  (path, content) :: fs

/-- Read one file back; a path never written reads as empty. -/
def fsRead (fs : FS) (path : String) : Bytes :=
  match fs with
  | [] => []
  | (p, b) :: rest => if p = path then b else fsRead rest path

/-- Value of one metadata field: a scalar or a list-valued field. -/
inductive MetaValue where
  | scalar (value : String)
  | listVal (values : List String)
deriving DecidableEq, Repr

/-- Modelled from the spec: rendering of one metadata field — list-valued
fields are repeated as one line per element, scalar fields give one line, and
empty fields are omitted. -/
def renderMetaField : String × MetaValue → List String
  | (k, .scalar v) => if v = "" then [] else [k ++ ": " ++ v]
  | (k, .listVal vs) => vs.map (fun v => k ++ ": " ++ v)

/-- Modelled from the spec: `generate_metadata_file` from `wheel/util.py`,
which is not among the given source files.  A pure function rendering the
package-level descriptive metadata block from the name, version, description
body and the field mapping; identical inputs yield identical output text. -/
def generate_metadata_file (name version description : String)
    (metadata : List (String × MetaValue)) : Bytes :=
  strCodes (String.intercalate "\n"
    (["Metadata-Version: 2.1", "Name: " ++ name, "Version: " ++ version] ++
      metadata.flatMap renderMetaField ++ ["", description]))

/-- Modelled from the spec: `generate_wheel_file` from `wheel/util.py`, which
is not among the given source files.  A pure function rendering the fixed
archive-format declaration block — generator identity, purity flag and the
target platform tag. -/
def generate_wheel_file (tag : String) : Bytes :=
  strCodes ("Wheel-Version: 1.0\nGenerator: binary-wheel-builder\nRoot-Is-Purelib: false\nTag: " ++
    tag ++ "\n")

/-- One per-platform build result (`WheelPlatformBuildResult` in `api/meta.py`):
the hex checksum and the path of the written archive. -/
structure WheelPlatformBuildResult where
  checksum : String
  file_path : String
deriving DecidableEq, Repr

/-- Modelled from the spec: the `Wheel` specification object from
`api/meta.py`, which is not among the given source files; fields are the ones
`build.py` reads.  The binary source is its one capability,
`generate_fileset`, embedded as a function from platform to either a raised
exception or the ordered entry list. -/
structure Wheel where
  name : String
  version : String
  summary : String := ""
  description : String := ""
  license : String := ""
  classifier : List String := []
  project_urls : List String := []
  requires_python : String := ""
  package : String
  executable : String
  add_to_path : Bool := false
  platforms : List WheelPlatformIdentifier
  source : WheelPlatformIdentifier → Except PyException (List WheelFileEntry)

/-- The normalized distribution name computed in `_write_wheel`:
`name.replace("-", "_")`; replacing the one-character pattern is the
character-wise map. -/
def normalizedName (name : String) : String :=
  String.mk (name.data.map (fun c => if c = '-' then '_' else c))

/-- Text of the generated `__main__.py` wrapper (the f-string in
`_write_platform_wheel_with_wrappers`, `build.py`). -/
def mainPyText (executable : String) : String :=
  String.intercalate "\n"
    ["import os, sys, subprocess",
     "sys.exit(subprocess.call([",
     "    os.path.join(os.path.dirname(__file__), \"" ++ executable ++ "\"),",
     "    *sys.argv[1:]",
     "]))",
     ""]

/-- Text of the generated `exec.py` helper module (the f-string in
`_write_platform_wheel_with_wrappers`, `build.py`), parameterized by the
embedded executable filename. -/
def execPyText (executable : String) : String :=
  String.intercalate "\n"
    ["from dataclasses import dataclass",
     "import subprocess",
     "import os",
     "from string import Template",
     "",
     "",
     "@dataclass(frozen=True)",
     "class ExecWithPrefixedOutputResult:",
     "    exit_code: int",
     "    stderr_buffer: str | None",
     "    stdout_buffer: str | None",
     "",
     "",
     "def create_subprocess(args: list[str], stdout: int, stderr: int) -> subprocess.Popen:",
     "    \"\"\"",
     "    Create subprocess for " ++ executable ++ " with the specified arguments",
     "",
     "    :param args: Arguments to pass to " ++ executable,
     "    :param stdout: Stdout channel",
     "    :param stderr: Stderr channel",
     "    \"\"\"",
     "    return subprocess.Popen([os.path.join(os.path.dirname(__file__), \"" ++ executable ++ "\"), *args], stdout=stdout, stderr=stderr, text=True)",
     "",
     "",
     "def exec_silently(args: list[str], timeout: int = -1) -> subprocess.Popen:",
     "    \"\"\"",
     "    Execute " ++ executable ++ " silently with given arguments",
     "",
     "    :param args: Arguments to pass to " ++ executable,
     "    :param timeout: Timeout in ms",
     "    :return: Completed Popen object",
     "    \"\"\"",
     "    process = create_subprocess(args, stdout=subprocess.DEVNULL, stderr=subprocess.DEVNULL)",
     "    if timeout > 0:",
     "        process.wait(timeout)",
     "    else:",
     "        process.wait()",
     "    return process",
     "",
     "",
     "def exec_with_templated_output(args: list[str],",
     "                              capture_output: bool = False,",
     "                              stdout_format: str = \"[STDOUT] $line\",",
     "                              stderr_format: str = \"[STDERR] $line\") -> ExecWithPrefixedOutputResult:",
     "    \"\"\"",
     "    Run " ++ executable ++ " using the specified args with templated stdout and stderr.",
     "",
     "",
     "    This utility is especially helpful when you want to use the python package as wrapper around a tool that runs",
     "    e.g. as part of a utility, where you provide the output for debug purposes etc. and want to mark clearly what it is about.",
     "",
     "",
     "    To customize the format of the stdout and stderr, customize the *_format parameters.",
     "",
     "    Following variables are available:",
     "        - *$line*: Captured output line with removed trailing linebreak or whitespace",
     "    :param args: Arguments to pass to " ++ executable,
     "    :param capture_output: Capture the output in the result instead of printing it to stdout",
     "    :param stdout_format: Format string for the stdout",
     "    :param stderr_format: Format string for the stderr.",
     "    :return:",
     "    \"\"\"",
     "",
     "    stderr_buffer = \"\"",
     "    stdout_buffer = \"\"",
     "",
     "    process = create_subprocess(args, stdout=subprocess.PIPE, stderr=subprocess.PIPE)",
     "",
     "    stdout_template = Template(stdout_format)",
     "    stderr_template = Template(stderr_format)",
     "",
     "    while True:",
     "        output_stdout = process.stdout.readline()",
     "        output_stderr = process.stderr.readline()",
     "",
     "        if output_stdout == '' and output_stderr == '' and process.poll() is not None:",
     "            break",
     "",
     "        if output_stdout:",
     "            stdout_buffer_line = stdout_template.safe_substitute(line=output_stdout.rstrip())",
     "            if capture_output:",
     "                stdout_buffer += stdout_buffer_line + \"\\n\"",
     "            else:",
     "                print(stdout_buffer_line)",
     "",
     "        if output_stderr:",
     "            stderr_buffer_line = stderr_template.safe_substitute(line=output_stderr.rstrip())",
     "            if capture_output:",
     "                stderr_buffer += stderr_buffer_line + \"\\n\"",
     "            else:",
     "                print(stderr_buffer_line)",
     "",
     "    process.wait()",
     "",
     "    return ExecWithPrefixedOutputResult(",
     "        exit_code=process.returncode,",
     "        stdout_buffer=stdout_buffer if stdout_buffer != \"\" else None,",
     "        stderr_buffer=stderr_buffer if stderr_buffer != \"\" else None,",
     "    )",
     "",
     "        "]

/-- Text of the generated `entry_points.txt` (the f-string in
`_write_platform_wheel_with_wrappers`, `build.py`). -/
def entryPointsText (name package : String) : String :=
  "[console_scripts]\n" ++ name ++ "=" ++ package ++ ":__main__\n"

/-- Embedding of `_write_wheel` (`build.py`): normalizes the name, derives the
archive filename and the dist-info directory name, appends the `METADATA` and
`WHEEL` entries after the caller's entries, and writes one archive file via
the reproducible writer.  Returns the updated filesystem and the wheel file
path (`os.path.join` with the forward-slash separator). -/
def _write_wheel (env : BuildEnv) (fs : FS) (out_dir name version tag : String)
    (metadata : List (String × MetaValue)) (description : String)
    (wheel_file_entries : List WheelFileEntry) : FS × String :=
  let normalized_name := normalizedName name
  let wheel_name := normalized_name ++ "-" ++ version ++ "-" ++ tag ++ ".whl"
  let dist_info := normalized_name ++ "-" ++ version ++ ".dist-info"
  let wheel_file_path := out_dir ++ "/" ++ wheel_name
  let entries := wheel_file_entries ++
    [{ path := dist_info ++ "/METADATA",
       content := generate_metadata_file name version description metadata },
     { path := dist_info ++ "/WHEEL", content := generate_wheel_file tag }]
  (fsWrite fs wheel_file_path (reproducibleZipBytes env entries), wheel_file_path)

/-- The `contents` list assembled in `_write_platform_wheel_with_wrappers`
(`build.py`): the three wrapper entries, plus — appended exactly when
`add_to_path` is set — the console-script declaration entry, whose path the
source builds from `wheel_info.package`, not from the normalized name. -/
def wheelContents (wheel_info : Wheel) : List WheelFileEntry :=
  [{ path := wheel_info.package ++ "/__init__.py", content := [] },
   { path := wheel_info.package ++ "/__main__.py",
     content := strCodes (mainPyText wheel_info.executable) },
   { path := wheel_info.package ++ "/exec.py",
     content := strCodes (execPyText wheel_info.executable) }] ++
  (if wheel_info.add_to_path then
    [{ path := wheel_info.package ++ "-" ++ wheel_info.version ++ ".dist-info/entry_points.txt",
       content := strCodes (entryPointsText wheel_info.name wheel_info.package) }]
   else [])

/-- The metadata dict literal passed to `_write_wheel` in
`_write_platform_wheel_with_wrappers` (`build.py`). -/
def buildMetadataDict (wheel_info : Wheel) : List (String × MetaValue) :=
  [("Summary", .scalar wheel_info.summary),
   ("Description-Content-Type", .scalar "text/markdown"),
   ("License", .scalar wheel_info.license),
   ("Classifier", .listVal wheel_info.classifier),
   ("Project-URL", .listVal wheel_info.project_urls),
   ("Requires-Python", .scalar wheel_info.requires_python)]

/-- Embedding of `_write_platform_wheel_with_wrappers` (`build.py`): the
source's `generate_fileset` runs while the entry list is being assembled —
before any file is written — so a raised exception leaves the filesystem
untouched; otherwise `_write_wheel` is called on the wrapper entries followed
by the source entries. -/
def _write_platform_wheel_with_wrappers (env : BuildEnv) (fs : FS) (out_dir : String)
    (wheel_info : Wheel) (platform : WheelPlatformIdentifier) :
    FS × Except PyException String :=
  match wheel_info.source platform with
  | .error e => (fs, .error e)
  | .ok source_entries =>
    let r := _write_wheel env fs out_dir wheel_info.name wheel_info.version
      platform.to_tag (buildMetadataDict wheel_info) wheel_info.description
      (wheelContents wheel_info ++ source_entries)
    (r.1, .ok r.2)

/-- Observable outcome of running the `build_wheel` generator to exhaustion:
the final filesystem, the results yielded before any exception, and the
exception that aborted the sequence, if one was raised. -/
structure BuildOutcome where
  fs : FS
  results : List WheelPlatformBuildResult
  error : Option PyException
deriving DecidableEq, Repr

/-- The per-platform loop of `build_wheel` (`build.py`): each iteration writes
one archive, then reopens the finalized file, reads its full bytes back and
yields the hex SHA-256 checksum with the file path.  A raised exception stops
the loop; results yielded before it stand. -/
def buildWheelGo (env : BuildEnv) (wheel_meta : Wheel) (dist_folder : String) :
    List WheelPlatformIdentifier → FS → BuildOutcome
  | [], fs => ⟨fs, [], none⟩
  | p :: rest, fs =>
    match _write_platform_wheel_with_wrappers env fs dist_folder wheel_meta p with
    | (fs', .error e) => ⟨fs', [], some e⟩
    | (fs', .ok wheel_path) =>
      let result : WheelPlatformBuildResult :=
        { checksum := sha256Hex (fsRead fs' wheel_path), file_path := wheel_path }
      let o := buildWheelGo env wheel_meta dist_folder rest fs'
      ⟨o.fs, result :: o.results, o.error⟩

/-- Embedding of the `build_wheel` generator (`build.py`), run to exhaustion:
one iteration per platform in the spec's platform-list order.  Directory
creation (`dist_folder.mkdir(exist_ok=True)`) is a no-op in the
path-to-bytes filesystem model and pre-existing files are not cleared. -/
def build_wheel (env : BuildEnv) (wheel_meta : Wheel) (dist_folder : String)
    (fs : FS) : BuildOutcome :=
  buildWheelGo env wheel_meta dist_folder wheel_meta.platforms fs

theorem parseEntries_flatMap (es : List WheelFileEntry) (n : Nat) :
    parseEntries (es.flatMap serializeEntry ++ [n]) = es.map entryTriple := by
  induction es with
  | nil =>
    simp only [List.flatMap_nil, List.nil_append, List.map_nil]
    rw [parseEntries.eq_def]
    cases n <;> rfl
  | cons e es ih =>
    simp only [List.flatMap_cons, List.append_assoc, serializeEntry, List.cons_append,
      List.map_cons]
    rw [parseEntries]
    rw [List.drop_left, List.take_left]
    simp [List.take_left, List.drop_left, ih, entryTriple]

theorem parseEntries_reproducibleZipBytes (env : BuildEnv) (es : List WheelFileEntry) :
    parseEntries (reproducibleZipBytes env es) = es.map entryTriple := by
  rw [reproducibleZipBytes, endOfArchiveRecord, parseEntries_flatMap]

theorem fsRead_fsWrite (fs : FS) (path : String) (content : Bytes) :
    fsRead (fsWrite fs path content) path = content := by
  simp [fsRead, fsWrite]

/-- C4: calling the remote-release binary source's `generate_fileset` with a
platform absent from its asset-name mapping raises
`UnsupportedWheelPlatformException` with an empty transport trace — zero
network calls — and that configuration error is a distinct kind from the
fetch-failure error `SourceFileRequestFailed`. -/
theorem c4_unsupported_platform_no_network (self : GithubReleaseBinarySource)
    (urlopen : Transport) (p : WheelPlatformIdentifier)
    (h : dictLookup self.asset_name_mapping p = none) :
    self.generate_fileset urlopen p =
      (.error (.unsupportedWheelPlatformException p), []) ∧
    ∀ (msg : String) (cause : HTTPErrorInfo),
      PyException.unsupportedWheelPlatformException p ≠
        PyException.sourceFileRequestFailed msg cause := by
  refine ⟨?_, ?_⟩
  · simp [GithubReleaseBinarySource.generate_fileset, h]
  · intro msg cause hc
    simp at hc

/-- Platform used by the C4 witness. -/
def platC4 : WheelPlatformIdentifier :=
  { key := "linux-x86_64", tagString := "linux_x86_64" }

/-- Source configuration used by the C4 witness: its asset mapping is empty,
so no platform is supported. -/
def srcC4 : GithubReleaseBinarySource :=
  { project_slug := "acme/tool", version := "1.0.0", asset_name_mapping := [],
    binary_path := "bin/tool" }

/-- Witness for C4 at a concrete source, transport and platform. -/
theorem c4_unsupported_platform_no_network_witness :
    dictLookup srcC4.asset_name_mapping platC4 = none ∧
    (srcC4.generate_fileset (fun _ => .ok []) platC4 =
        (.error (.unsupportedWheelPlatformException platC4), []) ∧
      ∀ (msg : String) (cause : HTTPErrorInfo),
        PyException.unsupportedWheelPlatformException platC4 ≠
          PyException.sourceFileRequestFailed msg cause) :=
  ⟨rfl, c4_unsupported_platform_no_network srcC4 (fun _ => .ok []) platC4 rfl⟩

/-- C5: when the remote fetch succeeds, `generate_fileset` returns a list of
exactly one entry whose content is the fetched bytes, whose path is the
configured archive-relative binary path, and whose permission bits are
`0o755`. -/
theorem c5_success_single_executable_entry (self : GithubReleaseBinarySource)
    (urlopen : Transport) (p : WheelPlatformIdentifier) (asset_name : String)
    (body : Bytes)
    (h : dictLookup self.asset_name_mapping p = some asset_name)
    (hok : urlopen (self.buildRequest asset_name) = .ok body) :
    self.generate_fileset urlopen p =
      (.ok [{ path := self.binary_path, content := body, permissions := 0o755 }],
       [self.buildRequest asset_name]) := by
  simp [GithubReleaseBinarySource.generate_fileset, h, hok]

/-- Platform used by the C5 witness. -/
def platC5 : WheelPlatformIdentifier :=
  { key := "darwin-arm64", tagString := "macosx_11_0_arm64" }

/-- Source configuration used by the C5 witness. -/
def srcC5 : GithubReleaseBinarySource :=
  { project_slug := "acme/tool", version := "2.1.0",
    asset_name_mapping := [(platC5, "tool-darwin-arm64")],
    binary_path := "tool/bin/tool" }

/-- Transport stub used by the C5 witness: every request succeeds. -/
def urlopenC5 : Transport := fun _ => .ok (strCodes "BINARY")

/-- Witness for C5 at a concrete source, transport and platform. -/
theorem c5_success_single_executable_entry_witness :
    dictLookup srcC5.asset_name_mapping platC5 = some "tool-darwin-arm64" ∧
    urlopenC5 (srcC5.buildRequest "tool-darwin-arm64") = .ok (strCodes "BINARY") ∧
    srcC5.generate_fileset urlopenC5 platC5 =
      (.ok [{ path := "tool/bin/tool", content := strCodes "BINARY",
              permissions := 0o755 }],
       [srcC5.buildRequest "tool-darwin-arm64"]) :=
  ⟨by decide, rfl,
   c5_success_single_executable_entry srcC5 urlopenC5 platC5 "tool-darwin-arm64"
     (strCodes "BINARY") (by decide) rfl⟩

/-- C6: for a supported platform, `generate_fileset` performs exactly one
fetch, to the templated release-asset URL, and the request carries an
`Authorization` header exactly when a token was supplied at construction. -/
theorem c6_single_fetch_url_and_auth_header (self : GithubReleaseBinarySource)
    (urlopen : Transport) (p : WheelPlatformIdentifier) (asset_name : String)
    (h : dictLookup self.asset_name_mapping p = some asset_name) :
    (self.generate_fileset urlopen p).2 = [self.buildRequest asset_name] ∧
    (self.buildRequest asset_name).url =
      "https://github.com/" ++ self.project_slug ++ "/releases/download/" ++
        self.tagPrefix ++ self.version ++ "/" ++ asset_name ∧
    (∀ t, self.token = some t →
      (self.buildRequest asset_name).headers = [("Authorization", "token " ++ t)]) ∧
    (self.token = none → (self.buildRequest asset_name).headers = []) := by
  refine ⟨?_, ?_, ?_, ?_⟩
  · unfold GithubReleaseBinarySource.generate_fileset
    rw [h]
    cases hr : urlopen (self.buildRequest asset_name) <;> simp [hr]
  · cases htok : self.token <;>
      simp [GithubReleaseBinarySource.buildRequest, GithubReleaseBinarySource.assetUrl,
        Request.add_header, htok]
  · intro t ht
    simp [GithubReleaseBinarySource.buildRequest, Request.add_header, ht]
  · intro ht
    simp [GithubReleaseBinarySource.buildRequest, ht]

/-- Platform used by the C6 witness. -/
def platC6 : WheelPlatformIdentifier :=
  { key := "windows-x86_64", tagString := "win_amd64" }

/-- Source configuration used by the C6 witness; a token is supplied. -/
def srcC6 : GithubReleaseBinarySource :=
  { project_slug := "acme/tool", version := "3.0.0",
    asset_name_mapping := [(platC6, "tool-windows.exe")],
    binary_path := "bin/tool.exe", token := some "SECRET" }

/-- Witness for C6 at a concrete source, transport and platform. -/
theorem c6_single_fetch_url_and_auth_header_witness :
    dictLookup srcC6.asset_name_mapping platC6 = some "tool-windows.exe" ∧
    ((srcC6.generate_fileset (fun _ => .ok []) platC6).2 =
        [srcC6.buildRequest "tool-windows.exe"] ∧
      (srcC6.buildRequest "tool-windows.exe").url =
        "https://github.com/" ++ srcC6.project_slug ++ "/releases/download/" ++
          srcC6.tagPrefix ++ srcC6.version ++ "/" ++ "tool-windows.exe" ∧
      (∀ t, srcC6.token = some t →
        (srcC6.buildRequest "tool-windows.exe").headers =
          [("Authorization", "token " ++ t)]) ∧
      (srcC6.token = none →
        (srcC6.buildRequest "tool-windows.exe").headers = [])) :=
  ⟨by decide,
   c6_single_fetch_url_and_auth_header srcC6 (fun _ => .ok []) platC6 "tool-windows.exe"
     (by decide)⟩

/-- C7: on an `HTTPError` transport response, `generate_fileset` raises
`SourceFileRequestFailed` with the message built from the original error's
rendering and the original error attached as cause, after exactly one fetch
— the request is never retried. -/
theorem c7_http_error_wrapped_with_cause_no_retry (self : GithubReleaseBinarySource)
    (urlopen : Transport) (p : WheelPlatformIdentifier) (asset_name : String)
    (e : HTTPErrorInfo)
    (h : dictLookup self.asset_name_mapping p = some asset_name)
    (he : urlopen (self.buildRequest asset_name) = .httpError e) :
    self.generate_fileset urlopen p =
      (.error (.sourceFileRequestFailed ("Failed to fetch file: " ++ pyStrHTTPError e) e),
       [self.buildRequest asset_name]) := by
  simp [GithubReleaseBinarySource.generate_fileset, h, he]

/-- Platform used by the C7 witness. -/
def platC7 : WheelPlatformIdentifier :=
  { key := "linux-arm64", tagString := "manylinux2014_aarch64" }

/-- Source configuration used by the C7 witness. -/
def srcC7 : GithubReleaseBinarySource :=
  { project_slug := "acme/tool", version := "1.4.2",
    asset_name_mapping := [(platC7, "tool-linux-arm64")],
    binary_path := "bin/tool" }

/-- Transport stub used by the C7 witness: every request gets a 404. -/
def urlopenC7 : Transport := fun _ => .httpError { code := 404, reason := "Not Found" }

/-- Witness for C7 at a concrete source, transport and platform. -/
theorem c7_http_error_wrapped_with_cause_no_retry_witness :
    dictLookup srcC7.asset_name_mapping platC7 = some "tool-linux-arm64" ∧
    urlopenC7 (srcC7.buildRequest "tool-linux-arm64") =
      .httpError { code := 404, reason := "Not Found" } ∧
    srcC7.generate_fileset urlopenC7 platC7 =
      (.error (.sourceFileRequestFailed
          ("Failed to fetch file: " ++ pyStrHTTPError { code := 404, reason := "Not Found" })
          { code := 404, reason := "Not Found" }),
       [srcC7.buildRequest "tool-linux-arm64"]) :=
  ⟨by decide, rfl,
   c7_http_error_wrapped_with_cause_no_retry srcC7 urlopenC7 platC7 "tool-linux-arm64"
     { code := 404, reason := "Not Found" } (by decide) rfl⟩

/-- C10: only an `HTTPError` response is wrapped into
`SourceFileRequestFailed`; a non-HTTP transport failure (a plain `URLError`)
propagates out of `generate_fileset` as the raw underlying exception, which is
a different kind from the fetch-failed exception. -/
theorem c10_url_error_propagates_raw (self : GithubReleaseBinarySource)
    (urlopen : Transport) (p : WheelPlatformIdentifier) (asset_name : String)
    (d : String)
    (h : dictLookup self.asset_name_mapping p = some asset_name)
    (he : urlopen (self.buildRequest asset_name) = .urlError d) :
    (self.generate_fileset urlopen p).1 = .error (.urlError d) ∧
    ∀ (msg : String) (cause : HTTPErrorInfo),
      PyException.urlError d ≠ PyException.sourceFileRequestFailed msg cause := by
  refine ⟨?_, ?_⟩
  · simp [GithubReleaseBinarySource.generate_fileset, h, he]
  · intro msg cause hc
    simp at hc

/-- Platform used by the C10 witness. -/
def platC10 : WheelPlatformIdentifier :=
  { key := "linux-x86_64", tagString := "manylinux2014_x86_64" }

/-- Source configuration used by the C10 witness. -/
def srcC10 : GithubReleaseBinarySource :=
  { project_slug := "acme/tool", version := "0.9.0",
    asset_name_mapping := [(platC10, "tool-linux-amd64")],
    binary_path := "bin/tool" }

/-- Transport stub used by the C10 witness: name resolution fails, raising a
plain `URLError` rather than an HTTP error response. -/
def urlopenC10 : Transport := fun _ => .urlError "Name or service not known"

/-- Witness for C10 at a concrete source, transport and platform. -/
theorem c10_url_error_propagates_raw_witness :
    dictLookup srcC10.asset_name_mapping platC10 = some "tool-linux-amd64" ∧
    urlopenC10 (srcC10.buildRequest "tool-linux-amd64") =
      .urlError "Name or service not known" ∧
    ((srcC10.generate_fileset urlopenC10 platC10).1 =
        .error (.urlError "Name or service not known") ∧
      ∀ (msg : String) (cause : HTTPErrorInfo),
        PyException.urlError "Name or service not known" ≠
          PyException.sourceFileRequestFailed msg cause) :=
  ⟨by decide, rfl,
   c10_url_error_propagates_raw srcC10 urlopenC10 platC10 "tool-linux-amd64"
     "Name or service not known" (by decide) rfl⟩

theorem reproducibleZipBytes_env (env₁ env₂ : BuildEnv) (es : List WheelFileEntry) :
    reproducibleZipBytes env₁ es = reproducibleZipBytes env₂ es := rfl

theorem buildWheelGo_env_fs_independent (wheel_meta : Wheel) (dist_folder : String)
    (ps : List WheelPlatformIdentifier) (env₁ env₂ : BuildEnv) (fs₁ fs₂ : FS) :
    (buildWheelGo env₁ wheel_meta dist_folder ps fs₁).results =
      (buildWheelGo env₂ wheel_meta dist_folder ps fs₂).results ∧
    (buildWheelGo env₁ wheel_meta dist_folder ps fs₁).error =
      (buildWheelGo env₂ wheel_meta dist_folder ps fs₂).error := by
  induction ps generalizing fs₁ fs₂ with
  | nil => simp [buildWheelGo]
  | cons p rest ih =>
    simp only [buildWheelGo, _write_platform_wheel_with_wrappers]
    cases hs : wheel_meta.source p with
    | error e => simp [hs]
    | ok src =>
      simp only [hs, _write_wheel, fsRead_fsWrite]
      exact ⟨congrArg (List.cons _) (ih _ _).1, (ih _ _).2⟩

/-- C1: the reproducible archive writer is a pure function of the entry
sequence — two invocations on byte-identical entry sequences produce
byte-identical archives whatever the wall-clock time, host OS, locale or
filesystem metadata are; a written wheel file read back is likewise
independent of the environment and of the pre-existing filesystem contents;
and consequently running the whole build twice for the same spec yields
identical result sequences, hence identical checksums. -/
theorem c1_reproducible_builds :
    (∀ (env₁ env₂ : BuildEnv) (entries : List WheelFileEntry),
        reproducibleZipBytes env₁ entries = reproducibleZipBytes env₂ entries) ∧
    (∀ (env₁ env₂ : BuildEnv) (fs₁ fs₂ : FS) (out_dir name version tag : String)
        (metadata : List (String × MetaValue)) (description : String)
        (entries : List WheelFileEntry),
        fsRead (_write_wheel env₁ fs₁ out_dir name version tag metadata description entries).1
            (_write_wheel env₁ fs₁ out_dir name version tag metadata description entries).2 =
          fsRead (_write_wheel env₂ fs₂ out_dir name version tag metadata description entries).1
            (_write_wheel env₂ fs₂ out_dir name version tag metadata description entries).2) ∧
    (∀ (env₁ env₂ : BuildEnv) (fs₁ fs₂ : FS) (wheel_meta : Wheel) (dist_folder : String),
        (build_wheel env₁ wheel_meta dist_folder fs₁).results =
          (build_wheel env₂ wheel_meta dist_folder fs₂).results ∧
        (build_wheel env₁ wheel_meta dist_folder fs₁).error =
          (build_wheel env₂ wheel_meta dist_folder fs₂).error) := by
  refine ⟨fun env₁ env₂ entries => rfl, ?_, ?_⟩
  · intro env₁ env₂ fs₁ fs₂ out_dir name version tag metadata description entries
    simp only [_write_wheel, fsRead_fsWrite]
    rfl
  · intro env₁ env₂ fs₁ fs₂ wheel_meta dist_folder
    exact buildWheelGo_env_fs_independent wheel_meta dist_folder wheel_meta.platforms
      env₁ env₂ fs₁ fs₂

/-- The archive file path `_write_wheel` derives for one platform of a wheel:
output directory, normalized name, version and platform tag. -/
def platformWheelPath (out_dir : String) (w : Wheel) (p : WheelPlatformIdentifier) : String :=
  out_dir ++ "/" ++ (normalizedName w.name ++ "-" ++ w.version ++ "-" ++ p.to_tag ++ ".whl")

/-- The `METADATA` entry `_write_wheel` appends, under the normalized-name
dist-info directory. -/
def metadataEntry (w : Wheel) : WheelFileEntry :=
  { path := normalizedName w.name ++ "-" ++ w.version ++ ".dist-info" ++ "/METADATA",
    content := generate_metadata_file w.name w.version w.description (buildMetadataDict w) }

/-- The `WHEEL` entry `_write_wheel` appends, under the normalized-name
dist-info directory. -/
def wheelEntry (w : Wheel) (p : WheelPlatformIdentifier) : WheelFileEntry :=
  { path := normalizedName w.name ++ "-" ++ w.version ++ ".dist-info" ++ "/WHEEL",
    content := generate_wheel_file p.to_tag }

/-- C2: when the binary source returns its entry list, the platform build
writes its archive with the records in exactly this insertion order — the
wrapper entries first, then the source's entries in the order the source
returned them, then the `METADATA` entry and the `WHEEL` entry as the final
two records; nothing is reordered or sorted. -/
theorem c2_entry_order_preserved (env : BuildEnv) (fs : FS) (out_dir : String)
    (wheel_info : Wheel) (platform : WheelPlatformIdentifier)
    (source_entries : List WheelFileEntry)
    (h : wheel_info.source platform = .ok source_entries) :
    (_write_platform_wheel_with_wrappers env fs out_dir wheel_info platform).2 =
      .ok (platformWheelPath out_dir wheel_info platform) ∧
    parseEntries (fsRead
        (_write_platform_wheel_with_wrappers env fs out_dir wheel_info platform).1
        (platformWheelPath out_dir wheel_info platform)) =
      (wheelContents wheel_info).map entryTriple ++
        source_entries.map entryTriple ++
        [entryTriple (metadataEntry wheel_info),
         entryTriple (wheelEntry wheel_info platform)] := by
  simp only [_write_platform_wheel_with_wrappers, h, _write_wheel, platformWheelPath,
    fsRead_fsWrite, parseEntries_reproducibleZipBytes, metadataEntry, wheelEntry,
    List.map_append, List.append_assoc, List.map_cons, List.map_nil]
  exact ⟨trivial, trivial⟩

/-- Platform used by the C2 witness. -/
def platC2 : WheelPlatformIdentifier :=
  { key := "linux-x86_64", tagString := "linux_x86_64" }

/-- Source entry list returned by the C2 witness's stub source, deliberately
in an order that any path- or hash-based sorting would disturb. -/
def srcEntriesC2 : List WheelFileEntry :=
  [{ path := "zz/second.bin", content := [9, 9], permissions := 0o755 },
   { path := "aa/first.bin", content := [1], permissions := 0o755 }]

/-- Wheel specification used by the C2 witness. -/
def wheelC2 : Wheel :=
  { name := "order-tool", version := "0.1.0", package := "order_tool",
    executable := "bin/order-tool", platforms := [platC2],
    source := fun _ => .ok srcEntriesC2 }

/-- Environment used by the C2 witness. -/
def envC2 : BuildEnv :=
  { wallClock := 7, hostOS := "linux", locale := "C", fsMtime := fun _ => 3 }

/-- Witness for C2 at a concrete wheel, platform and stub source. -/
theorem c2_entry_order_preserved_witness :
    wheelC2.source platC2 = .ok srcEntriesC2 ∧
    ((_write_platform_wheel_with_wrappers envC2 [] "dist" wheelC2 platC2).2 =
        .ok (platformWheelPath "dist" wheelC2 platC2) ∧
      parseEntries (fsRead
          (_write_platform_wheel_with_wrappers envC2 [] "dist" wheelC2 platC2).1
          (platformWheelPath "dist" wheelC2 platC2)) =
        (wheelContents wheelC2).map entryTriple ++
          srcEntriesC2.map entryTriple ++
          [entryTriple (metadataEntry wheelC2),
           entryTriple (wheelEntry wheelC2 platC2)]) :=
  ⟨rfl, c2_entry_order_preserved envC2 [] "dist" wheelC2 platC2 srcEntriesC2 rfl⟩

theorem buildWheelGo_all_ok (env : BuildEnv) (wheel_meta : Wheel) (dist : String)
    (ps : List WheelPlatformIdentifier) (fs : FS)
    (hok : ∀ p ∈ ps, ∃ es, wheel_meta.source p = .ok es) :
    (buildWheelGo env wheel_meta dist ps fs).error = none ∧
    (buildWheelGo env wheel_meta dist ps fs).results.map (fun r => r.file_path) =
      ps.map (platformWheelPath dist wheel_meta) ∧
    ∃ writes : FS, (buildWheelGo env wheel_meta dist ps fs).fs = writes ++ fs ∧
      writes.map Prod.fst = (ps.map (platformWheelPath dist wheel_meta)).reverse := by
  induction ps generalizing fs with
  | nil => exact ⟨rfl, rfl, [], rfl, rfl⟩
  | cons p rest ih =>
    obtain ⟨es, hes⟩ := hok p (List.mem_cons_self p rest)
    have hrest : ∀ q ∈ rest, ∃ es2, wheel_meta.source q = .ok es2 :=
      fun q hq => hok q (List.mem_cons_of_mem p hq)
    simp only [buildWheelGo, _write_platform_wheel_with_wrappers, hes, _write_wheel]
    obtain ⟨h1, h2, writes, hfs, hw⟩ := ih _ hrest
    refine ⟨h1, ?_, ?_⟩
    · simp only [List.map_cons]
      rw [h2]
      rfl
    · refine ⟨writes ++ [((platformWheelPath dist wheel_meta p),
        reproducibleZipBytes env (wheelContents wheel_meta ++ es ++
          [metadataEntry wheel_meta, wheelEntry wheel_meta p]))], ?_, ?_⟩
      · rw [hfs]
        simp [fsWrite, metadataEntry, wheelEntry, List.append_assoc, platformWheelPath, WheelPlatformIdentifier.to_tag]
      · simp only [List.map_append, hw, List.map_cons, List.map_nil, List.reverse_cons]

theorem buildWheelGo_abort (env : BuildEnv) (wheel_meta : Wheel) (dist : String)
    (pre post : List WheelPlatformIdentifier) (bad : WheelPlatformIdentifier)
    (e : PyException) (fs : FS)
    (hpre : ∀ p ∈ pre, ∃ es, wheel_meta.source p = .ok es)
    (hbad : wheel_meta.source bad = .error e) :
    (buildWheelGo env wheel_meta dist (pre ++ bad :: post) fs).error = some e ∧
    (buildWheelGo env wheel_meta dist (pre ++ bad :: post) fs).results.map
        (fun r => r.file_path) =
      pre.map (platformWheelPath dist wheel_meta) ∧
    ∃ writes : FS,
      (buildWheelGo env wheel_meta dist (pre ++ bad :: post) fs).fs = writes ++ fs ∧
      writes.map Prod.fst = (pre.map (platformWheelPath dist wheel_meta)).reverse := by
  induction pre generalizing fs with
  | nil =>
    simp only [List.nil_append, buildWheelGo, _write_platform_wheel_with_wrappers, hbad]
    exact ⟨trivial, rfl, [], rfl, rfl⟩
  | cons p rest ih =>
    obtain ⟨es, hes⟩ := hpre p (List.mem_cons_self p rest)
    have hrest : ∀ q ∈ rest, ∃ es2, wheel_meta.source q = .ok es2 :=
      fun q hq => hpre q (List.mem_cons_of_mem p hq)
    simp only [List.cons_append, buildWheelGo, _write_platform_wheel_with_wrappers, hes,
      _write_wheel, List.append_eq]
    obtain ⟨h1, h2, writes, hfs, hw⟩ := ih _ hrest
    refine ⟨h1, ?_, ?_⟩
    · simp only [List.map_cons]
      rw [h2]
      rfl
    · refine ⟨writes ++ [((platformWheelPath dist wheel_meta p),
        reproducibleZipBytes env (wheelContents wheel_meta ++ es ++
          [metadataEntry wheel_meta, wheelEntry wheel_meta p]))], ?_, ?_⟩
      · rw [hfs]
        simp [fsWrite, metadataEntry, wheelEntry, List.append_assoc, platformWheelPath,
          WheelPlatformIdentifier.to_tag]
      · simp only [List.map_append, hw, List.map_cons, List.map_nil, List.reverse_cons]

/-- C9: the orchestrator produces one build result per platform in the spec's
platform-list order (each result's file path is the platform's archive path);
when every platform's source succeeds the sequence completes with no error and
writes exactly one file per platform on top of the pre-existing filesystem.
If some platform's binary source raises, that exception propagates, the
results stop at the platforms before it, no further platform is built, and
the archives already written for the earlier platforms remain on disk
unchanged (the final filesystem is exactly their writes on top of the
original contents). -/
theorem c9_results_in_order_and_abort_on_error (env : BuildEnv) (wheel_meta : Wheel)
    (dist_folder : String) (fs : FS) :
    ((∀ p ∈ wheel_meta.platforms, ∃ es, wheel_meta.source p = .ok es) →
      (build_wheel env wheel_meta dist_folder fs).error = none ∧
      (build_wheel env wheel_meta dist_folder fs).results.map (fun r => r.file_path) =
        wheel_meta.platforms.map (platformWheelPath dist_folder wheel_meta) ∧
      ∃ writes : FS, (build_wheel env wheel_meta dist_folder fs).fs = writes ++ fs ∧
        writes.map Prod.fst =
          (wheel_meta.platforms.map (platformWheelPath dist_folder wheel_meta)).reverse) ∧
    (∀ (pre post : List WheelPlatformIdentifier) (bad : WheelPlatformIdentifier)
        (e : PyException),
      wheel_meta.platforms = pre ++ bad :: post →
      (∀ p ∈ pre, ∃ es, wheel_meta.source p = .ok es) →
      wheel_meta.source bad = .error e →
      (build_wheel env wheel_meta dist_folder fs).error = some e ∧
      (build_wheel env wheel_meta dist_folder fs).results.map (fun r => r.file_path) =
        pre.map (platformWheelPath dist_folder wheel_meta) ∧
      ∃ writes : FS, (build_wheel env wheel_meta dist_folder fs).fs = writes ++ fs ∧
        writes.map Prod.fst = (pre.map (platformWheelPath dist_folder wheel_meta)).reverse) := by
  constructor
  · intro hok
    exact buildWheelGo_all_ok env wheel_meta dist_folder wheel_meta.platforms fs hok
  · intro pre post bad e hplat hpre hbad
    unfold build_wheel
    rw [hplat]
    exact buildWheelGo_abort env wheel_meta dist_folder pre post bad e fs hpre hbad

/-- Platforms used by the C9 witness: the first is supported by the stub
source, the second is not. -/
def platC9a : WheelPlatformIdentifier :=
  { key := "linux-x86_64", tagString := "linux_x86_64" }

/-- Platforms used by the C9 witness: the first is supported by the stub
source, the second is not. -/
def platC9b : WheelPlatformIdentifier :=
  { key := "windows-x86_64", tagString := "win_amd64" }

/-- The exception the C9 witness's stub source raises on the second platform. -/
def errC9 : PyException := .unsupportedWheelPlatformException platC9b

/-- Wheel used by the C9 witness: two platforms, the source succeeding on the
first and raising on the second. -/
def wheelC9 : Wheel :=
  { name := "abort-tool", version := "2.0.0", package := "abort_tool",
    executable := "bin/abort-tool", platforms := [platC9a, platC9b],
    source := fun q => if q = platC9a then
        .ok [{ path := "bin/abort-tool", content := [7], permissions := 0o755 }]
      else .error errC9 }

/-- Environment used by the C9 witness. -/
def envC9 : BuildEnv :=
  { wallClock := 11, hostOS := "darwin", locale := "C.UTF-8", fsMtime := fun _ => 1 }

/-- Witness for C9: at the concrete two-platform wheel the build aborts on
the second platform with the stub's exception, having yielded exactly the
first platform's result and written exactly the first platform's archive. -/
theorem c9_results_in_order_and_abort_on_error_witness :
    wheelC9.platforms = [platC9a] ++ platC9b :: [] ∧
    wheelC9.source platC9b = .error errC9 ∧
    ((build_wheel envC9 wheelC9 "dist" []).error = some errC9 ∧
      (build_wheel envC9 wheelC9 "dist" []).results.map (fun r => r.file_path) =
        [platC9a].map (platformWheelPath "dist" wheelC9) ∧
      ∃ writes : FS, (build_wheel envC9 wheelC9 "dist" []).fs = writes ++ [] ∧
        writes.map Prod.fst = ([platC9a].map (platformWheelPath "dist" wheelC9)).reverse) :=
  ⟨rfl, by simp [wheelC9, platC9a, platC9b],
   (c9_results_in_order_and_abort_on_error envC9 wheelC9 "dist" []).2 [platC9a] [] platC9b
     errC9 rfl
     (by
       intro p hp
       simp only [List.mem_singleton] at hp
       exact ⟨[{ path := "bin/abort-tool", content := [7], permissions := 0o755 }],
         by simp [hp, wheelC9]⟩)
     (by simp [wheelC9, platC9a, platC9b])⟩

theorem fsRead_fsWrite_of_eq (fs : FS) (p q : String) (c : Bytes) (h : p = q) :
    fsRead (fsWrite fs p c) q = c := by
  subst h
  simp [fsRead, fsWrite]

/-- Platform used by the C3 evaluation. -/
def platC3 : WheelPlatformIdentifier :=
  { key := "linux-x86_64", tagString := "linux_x86_64" }

/-- Wheel used by the C3 evaluation: its distribution name normalizes to
`my_tool`, while its package identifier is `mytool`, so the two dist-info
directory spellings differ. -/
def srcEntryC3 : WheelFileEntry :=
  { path := "bin/my-tool", content := [0], permissions := 0o755 }

/-- Wheel used by the C3 evaluation (continued): its one-platform stub source
returns one executable entry. -/
def wheelC3 : Wheel :=
  { name := "my-tool", version := "1.0", package := "mytool",
    executable := "bin/my-tool", add_to_path := true, platforms := [platC3],
    source := fun _ => .ok [srcEntryC3] }

/-- Environment used by the C3 evaluation. -/
def envC3 : BuildEnv :=
  { wallClock := 5, hostOS := "linux", locale := "C", fsMtime := fun _ => 2 }

/-- C3, evaluated at the failing input: with add-to-path set and
`package = "mytool"` against normalized name `my_tool`, the built archive
places `entry_points.txt` under `mytool-1.0.dist-info` — the package
identifier — while `METADATA` and `WHEEL` sit under `my_tool-1.0.dist-info`,
the normalized name; no entry exists at the path the claim requires. -/
theorem c3_entry_points_path_uses_package_identifier :
    ((parseEntries (fsRead (build_wheel envC3 wheelC3 "dist" []).fs
        "dist/my_tool-1.0-linux_x86_64.whl")).map (fun t => t.1)) =
      [strCodes "mytool/__init__.py", strCodes "mytool/__main__.py",
       strCodes "mytool/exec.py",
       strCodes "mytool-1.0.dist-info/entry_points.txt",
       strCodes "bin/my-tool",
       strCodes "my_tool-1.0.dist-info/METADATA",
       strCodes "my_tool-1.0.dist-info/WHEEL"] ∧
    strCodes "my_tool-1.0.dist-info/entry_points.txt" ∉
      ((parseEntries (fsRead (build_wheel envC3 wheelC3 "dist" []).fs
        "dist/my_tool-1.0-linux_x86_64.whl")).map (fun t => t.1)) := by
  have hread : fsRead (build_wheel envC3 wheelC3 "dist" []).fs
      "dist/my_tool-1.0-linux_x86_64.whl" =
      reproducibleZipBytes envC3 (wheelContents wheelC3 ++ [srcEntryC3] ++
        [metadataEntry wheelC3, wheelEntry wheelC3 platC3]) := by
    simp only [build_wheel, buildWheelGo, wheelC3, _write_platform_wheel_with_wrappers,
      _write_wheel, metadataEntry, wheelEntry, wheelContents, List.append_assoc]
    rw [fsRead_fsWrite_of_eq]
    decide
  rw [hread, parseEntries_reproducibleZipBytes]
  constructor
  · simp only [List.map_map, List.map_append, wheelContents, entryTriple]
    decide
  · simp only [List.map_map, List.map_append, wheelContents, entryTriple]
    decide

/-- Platform used by the C8 end-to-end scenario; its tag renders as
`linux_x86_64`. -/
def platC8 : WheelPlatformIdentifier :=
  { key := "linux-x86_64", tagString := "linux_x86_64" }

/-- The single entry the C8 scenario's stub binary source returns:
`bin/tool`, executable, content `BINARY`. -/
def stubEntryC8 : WheelFileEntry :=
  { path := "bin/tool", content := strCodes "BINARY", permissions := 0o755 }

/-- Wheel for the C8 scenario: name `tool`, version `1.2.0`, one platform,
add-to-path unset, stub source. -/
def wheelC8 : Wheel :=
  { name := "tool", version := "1.2.0", package := "tool", executable := "bin/tool",
    add_to_path := false, platforms := [platC8],
    source := fun _ => .ok [stubEntryC8] }

/-- Environment used by the C8 scenario. -/
def envC8 : BuildEnv :=
  { wallClock := 1700000000, hostOS := "linux", locale := "en_US.UTF-8",
    fsMtime := fun _ => 42 }

/-- C8: the end-to-end scenario — one platform, stub source with one entry,
add-to-path unset — produces exactly one archive, named
`tool-1.2.0-linux_x86_64.whl` in the output directory, containing exactly 6
entry records (3 wrapper + 1 source + 2 metadata), and the yielded result's
checksum is the hex SHA-256 of the finalized file's bytes as read back from
the filesystem. -/
theorem c8_end_to_end_scenario :
    (build_wheel envC8 wheelC8 "dist" []).error = none ∧
    (build_wheel envC8 wheelC8 "dist" []).fs.map Prod.fst =
      ["dist/tool-1.2.0-linux_x86_64.whl"] ∧
    zipEntryCount (fsRead (build_wheel envC8 wheelC8 "dist" []).fs
      "dist/tool-1.2.0-linux_x86_64.whl") = 6 ∧
    (build_wheel envC8 wheelC8 "dist" []).results.map (fun r => r.file_path) =
      ["dist/tool-1.2.0-linux_x86_64.whl"] ∧
    (build_wheel envC8 wheelC8 "dist" []).results.map (fun r => r.checksum) =
      [sha256Hex (fsRead (build_wheel envC8 wheelC8 "dist" []).fs
        "dist/tool-1.2.0-linux_x86_64.whl")] := by
  have hread : fsRead (build_wheel envC8 wheelC8 "dist" []).fs
      "dist/tool-1.2.0-linux_x86_64.whl" =
      reproducibleZipBytes envC8 (wheelContents wheelC8 ++ [stubEntryC8] ++
        [metadataEntry wheelC8, wheelEntry wheelC8 platC8]) := by
    simp only [build_wheel, buildWheelGo, wheelC8, _write_platform_wheel_with_wrappers,
      _write_wheel, metadataEntry, wheelEntry, wheelContents, List.append_assoc]
    rw [fsRead_fsWrite_of_eq]
    decide
  refine ⟨rfl, ?_, ?_, ?_, ?_⟩
  · simp only [build_wheel, buildWheelGo, wheelC8, _write_platform_wheel_with_wrappers,
      _write_wheel, fsWrite, List.map_cons, List.map_nil]
    decide
  · rw [hread, zipEntryCount, parseEntries_reproducibleZipBytes]
    simp [wheelContents, wheelC8]
  · simp only [build_wheel, buildWheelGo, wheelC8, _write_platform_wheel_with_wrappers,
      _write_wheel, List.map_cons, List.map_nil]
    decide
  · rw [hread]
    simp only [build_wheel, buildWheelGo, wheelC8, _write_platform_wheel_with_wrappers,
      _write_wheel, fsRead_fsWrite, List.map_cons, List.map_nil, metadataEntry,
      wheelEntry, wheelContents, List.append_assoc]
